/-
Verification development for the JobFit-AI analysis pipeline
(src/JobFit-AI.py).  The Python source is shallowly embedded below:
pure string processing is translated to executable Lean functions over
String and List Char, the document builder is translated to a function
producing a list of flowables, and the LLM client is translated to
functions parameterized by the external generation backend and by the
external JSON decoder.  Machine floats carry no arithmetic in the parts
modelled here, so temperatures are embedded as rationals.
-/
import Mathlib

set_option linter.unusedVariables false

/-! ## Python string primitives (ASCII fragment)

The source manipulates strings with str.strip, str.upper, str.isupper,
str.splitlines, str.split and the in operator.  The embeddings below
follow the CPython semantics restricted to ASCII text, which covers
every string the claims touch. -/

/-- Python whitespace test for str.strip / str.splitlines handling
(space, tab, newline, carriage return, vertical tab, form feed). -/
def py_ws (c : Char) : Bool :=
  c == ' ' || c == '\t' || c == '\n' || c == '\r' || c == '\x0b' || c == '\x0c'

/-- Embedding of str.strip (no argument): drop whitespace from both ends. -/
def py_strip (s : String) : String :=
  String.mk (((s.toList.dropWhile py_ws).reverse.dropWhile py_ws).reverse)

/-- Embedding of str.upper on ASCII text. -/
def py_upper (s : String) : String :=
  String.mk (s.toList.map Char.toUpper)

/-- Embedding of str.isupper on ASCII text: at least one cased character
and no lowercase character. -/
def py_isupper (s : String) : Bool :=
  s.toList.any Char.isAlpha && s.toList.all (fun c => !c.isLower)

/-- Worker for str.splitlines: the accumulator holds the current line
reversed.  Recognizes the line boundaries LF, CR and CRLF. -/
def splitlines_go : List Char → List Char → List String
  | [], acc => if acc.isEmpty then [] else [String.mk acc.reverse]
  | '\n' :: cs, acc => String.mk acc.reverse :: splitlines_go cs []
  | '\r' :: '\n' :: cs, acc => String.mk acc.reverse :: splitlines_go cs []
  | '\r' :: cs, acc => String.mk acc.reverse :: splitlines_go cs []
  | c :: cs, acc => splitlines_go cs (c :: acc)

/-- Embedding of str.splitlines. -/
def py_splitlines (s : String) : List String :=
  splitlines_go s.toList []

/-- Worker for str.split with separator newline. -/
def split_nl_go : List Char → List Char → List String
  | [], acc => [String.mk acc.reverse]
  | c :: cs, acc =>
    if c == '\n' then String.mk acc.reverse :: split_nl_go cs []
    else split_nl_go cs (c :: acc)

/-- Embedding of s.split with separator newline, as in
generate_updated_resume1. -/
def py_split_nl (s : String) : List String :=
  split_nl_go s.toList []

/-- Embedding of the Python expression needle in hay for strings:
substring containment. -/
def py_in_str (needle hay : String) : Bool :=
  hay.toList.tails.any (fun t => needle.toList.isPrefixOf t)

/-- The opening brace character, written by code point to keep brace
characters out of the literals of this file. -/
def lbrace : Char := Char.ofNat 123

/-- The closing brace character. -/
def rbrace : Char := Char.ofNat 125

/-! ## JSON values and a model of json.loads

The repository recovers structure from model output with json.loads.
The decoder is external library code, so the client functions below are
parameterized over an arbitrary decoder of type String → Option Json
(None embeds a raised json.JSONDecodeError).  For concrete evaluations
the executable json_loads below implements the JSON grammar without
string escapes and without fractional numbers, which is the fragment
exercised by the concrete strings in this file; on those strings it
agrees with CPython json.loads. -/

inductive Json where
  | null : Json
  | bool : Bool → Json
  | num : Int → Json
  | str : String → Json
  | arr : List Json → Json
  | obj : List (String × Json) → Json

/-- Consume JSON whitespace. -/
def json_ws : List Char → List Char
  | [] => []
  | c :: cs =>
    if c == ' ' || c == '\t' || c == '\n' || c == '\r' then json_ws cs
    else c :: cs

/-- Parse the remainder of a JSON string literal (opening quote already
consumed); escape sequences are outside the modelled fragment. -/
def json_string_rest : List Char → Option (List Char × List Char)
  | [] => none
  | c :: cs =>
    if c == '"' then some ([], cs)
    else if c == '\\' then none
    else
      match json_string_rest cs with
      | some (s, rest) => some (c :: s, rest)
      | none => none

/-- Digits of a decimal literal folded to a natural number. -/
def digits_val (ds : List Char) : Nat :=
  ds.foldl (fun n c => n * 10 + (c.toNat - 48)) 0

/-- Mode of the recursive-descent JSON reader: a value, the members of
an object, or the items of an array. -/
inductive JMode where
  | value : JMode
  | members : List (String × Json) → JMode
  | items : List Json → JMode

/-- Fuel-indexed JSON reader; fuel larger than the input length never
runs out on the fragment modelled here. -/
def json_read (fuel : Nat) (mode : JMode) (input : List Char) :
    Option (Json × List Char) :=
  match fuel with
  | 0 => none
  | fuel + 1 =>
    match mode with
    | JMode.value =>
      match json_ws input with
      | [] => none
      | c :: cs =>
        if c == '"' then
          match json_string_rest cs with
          | some (s, rest) => some (Json.str (String.mk s), rest)
          | none => none
        else if c == lbrace then
          match json_ws cs with
          | d :: ds =>
            if d == rbrace then some (Json.obj [], ds)
            else json_read fuel (JMode.members []) (d :: ds)
          | [] => none
        else if c == '[' then
          match json_ws cs with
          | d :: ds =>
            if d == ']' then some (Json.arr [], ds)
            else json_read fuel (JMode.items []) (d :: ds)
          | [] => none
        else if c == 't' then
          match cs with
          | 'r' :: 'u' :: 'e' :: rest => some (Json.bool true, rest)
          | _ => none
        else if c == 'f' then
          match cs with
          | 'a' :: 'l' :: 's' :: 'e' :: rest => some (Json.bool false, rest)
          | _ => none
        else if c == 'n' then
          match cs with
          | 'u' :: 'l' :: 'l' :: rest => some (Json.null, rest)
          | _ => none
        else if c == '-' then
          match cs.span Char.isDigit with
          | ([], _) => none
          | (ds, rest) => some (Json.num (-(digits_val ds : Int)), rest)
        else if c.isDigit then
          match (c :: cs).span Char.isDigit with
          | (ds, rest) => some (Json.num (digits_val ds : Int), rest)
        else none
    | JMode.members acc =>
      match json_ws input with
      | c :: cs =>
        if c == '"' then
          match json_string_rest cs with
          | some (k, rest) =>
            match json_ws rest with
            | ':' :: rest2 =>
              match json_read fuel JMode.value rest2 with
              | some (v, rest3) =>
                match json_ws rest3 with
                | ',' :: rest4 =>
                  json_read fuel (JMode.members (acc ++ [(String.mk k, v)])) rest4
                | d :: rest4 =>
                  if d == rbrace then
                    some (Json.obj (acc ++ [(String.mk k, v)]), rest4)
                  else none
                | [] => none
              | none => none
            | _ => none
          | none => none
        else none
      | [] => none
    | JMode.items acc =>
      match json_read fuel JMode.value input with
      | some (v, rest) =>
        match json_ws rest with
        | ',' :: rest2 => json_read fuel (JMode.items (acc ++ [v])) rest2
        | ']' :: rest2 => some (Json.arr (acc ++ [v]), rest2)
        | _ => none
      | none => none

/-- Model of json.loads on the fragment described above: parse one
value and require only whitespace after it. -/
def json_loads (s : String) : Option Json :=
  match json_read (s.length + 1) JMode.value s.toList with
  | some (v, rest) => if (json_ws rest).isEmpty then some v else none
  | none => none

/-! ## LLMClient (src/JobFit-AI.py lines 19-63)

The generation backend (google.generativeai) is an external
collaborator: it is embedded as a function from prompt and temperature
to a response value.  A backend response exposes a .text attribute and
a candidate/part sequence, either of which may raise when accessed;
raising is embedded as Except.error. -/

/-- SUPPORTED_MODELS from the source. -/
def SUPPORTED_MODELS : List String :=
  ["models/gemini-2.0-flash", "models/gemini-pro"]

/-- The state LLMClient.__init__ stores: the (possibly substituted)
model name and the client temperature.  The api key is only forwarded
to genai.configure and not stored. -/
structure LLMClient where
  model_name : String
  temperature : Rat
deriving DecidableEq

/-- Embedding of LLMClient.__init__: an empty api key raises
ValueError (embedded as Except.error); an unsupported model name is
silently replaced by SUPPORTED_MODELS[0].  The genai.configure and
genai.GenerativeModel calls are external side effects with no bearing
on the stored state. -/
def LLMClient.init (api_key : String) (model_name : String) (temperature : Rat) :
    Except String LLMClient :=
  if api_key = "" then Except.error "Missing Gemini API key"
  else
    Except.ok
      { model_name :=
          if SUPPORTED_MODELS.contains model_name then model_name
          else SUPPORTED_MODELS.headD ""
        temperature := temperature }

/-- A backend response: the .text attribute (None or a string, or an
access that raises) and the flattened candidate/part structure, where
each part carries getattr(part, "text", None). -/
structure GenResponse where
  text : Except Unit (Option String)
  candidates : Except Unit (List (List (Option String)))

/-- The joined candidate/part text of the fallback branch of
LLMClient._first_text: part texts that are present and non-empty,
joined by newlines, then stripped. -/
def parts_text (cands : List (List (Option String))) : String :=
  py_strip (String.intercalate "\n"
    ((cands.flatMap id).filterMap (fun pt =>
      match pt with
      | some s => if s == "" then none else some s
      | none => none)))

/-- Embedding of LLMClient._first_text. -/
def first_text (r : GenResponse) : String :=
  match r.text with
  | Except.ok t => py_strip (t.getD "")
  | Except.error _ =>
    match r.candidates with
    | Except.ok cands => parts_text cands
    | Except.error _ => ""

/-- The temperature put into the GenerationConfig of
LLMClient.generate_text: the explicit argument if given, otherwise the
client temperature.  No clamping is performed. -/
def generation_temperature (c : LLMClient) (temperature : Option Rat) : Rat :=
  match temperature with
  | none => c.temperature
  | some t => t

/-- Embedding of LLMClient.generate_text, parameterized by the backend
call model.generate_content. -/
def generate_text (c : LLMClient) (backend : String → Rat → GenResponse)
    (prompt : String) (temperature : Option Rat) : String :=
  first_text (backend prompt (generation_temperature c temperature))

/-- Embedding of the first fallback regex of LLMClient.generate_json,
searching for an opening brace followed by anything up to a closing
brace at the end of the string (the dollar anchor also matches just
before one trailing newline).  With a greedy middle the leftmost match
runs from the first opening brace to that final closing brace. -/
def search_brace_anchored (raw : String) : Option String :=
  match
    (match raw.toList.getLast? with
     | some c =>
       if c == rbrace then some (raw.toList.length - 1)
       else
         if c == '\n' then
           match raw.toList.dropLast.getLast? with
           | some d => if d == rbrace then some (raw.toList.length - 2) else none
           | none => none
         else none
     | none => none),
    raw.toList.findIdx? (fun c => c == lbrace) with
  | some j, some i =>
    if i < j then some (String.mk ((raw.toList.drop i).take (j + 1 - i))) else none
  | _, _ => none

/-- Embedding of the second fallback regex of LLMClient.generate_json,
an unanchored greedy brace span: the leftmost match runs from the first
opening brace to the last closing brace of the whole string. -/
def search_brace_greedy (raw : String) : Option String :=
  match raw.toList.findIdx? (fun c => c == lbrace),
    raw.toList.reverse.findIdx? (fun c => c == rbrace) with
  | some i, some jr =>
    if i < raw.toList.length - 1 - jr then
      some (String.mk ((raw.toList.drop i).take (raw.toList.length - jr - i)))
    else none
  | _, _ => none

/-- Embedding of the body of LLMClient.generate_json after the
generate_text call, parameterized by the json.loads model: try the
whole string, then the first regex result or (only when the first regex
found no match) the second, parse the selected span at most once, and
fall back to the empty mapping. -/
def generate_json_of_raw (loads : String → Option Json) (raw : String) : Json :=
  match loads raw with
  | some v => v
  | none =>
    match (search_brace_anchored raw).or (search_brace_greedy raw) with
    | some m =>
      match loads m with
      | some v => v
      | none => Json.obj []
    | none => Json.obj []

/-- Embedding of LLMClient.generate_json. -/
def LLMClient.generate_json (c : LLMClient) (backend : String → Rat → GenResponse)
    (loads : String → Option Json) (prompt : String) (temperature : Option Rat) : Json :=
  generate_json_of_raw loads (generate_text c backend prompt temperature)

/-! ## JobAnalyzer and the pipeline completeness check
(src/JobFit-AI.py lines 271-339 and 634-640) -/

/-- The f-string prompt of JobAnalyzer.analyze_job. -/
def job_prompt (job_description : String) : String :=
  "\n        Analyze this job description and provide a detailed JSON with:\n        1. Key technical skills required\n        2. Soft skills required\n        3. Years of experience required\n        4. Education requirements\n        5. Key responsibilities\n        6. Company culture indicators\n        7. Required certifications\n        8. Industry type\n        9. Job level (entry, mid, senior)\n        10. Key technologies mentioned\n        Respond ONLY with a valid JSON object.\n        Job Description:\n"
    ++ job_description ++ "\n        "

/-- The f-string prompt of JobAnalyzer.analyze_resume. -/
def resume_prompt (resume_text : String) : String :=
  "\n        Analyze this resume and provide a detailed JSON with:\n        1. Technical skills\n        2. Soft skills\n        3. Years of experience\n        4. Education details\n        5. Key achievements\n        6. Core competencies\n        7. Industry experience\n        8. Leadership experience\n        9. Technologies used\n        10. Projects completed\n        Respond ONLY with a valid JSON object.\n        Resume:\n"
    ++ resume_text ++ "\n        "

/-- The worked schema example embedded in the analyze_match prompt. -/
def match_structure : Json :=
  Json.obj
    [("overall_match_percentage", Json.str "85%"),
     ("matching_skills",
       Json.arr [Json.obj [("skill_name", Json.str "Python"), ("is_match", Json.bool true)]]),
     ("missing_skills",
       Json.arr [Json.obj
         [("skill_name", Json.str "Docker"), ("is_match", Json.bool false),
          ("suggestion", Json.str "Consider obtaining Docker certification")]]),
     ("skills_gap_analysis",
       Json.obj [("technical_skills", Json.str ""), ("soft_skills", Json.str "")]),
     ("experience_match_analysis", Json.str ""),
     ("education_match_analysis", Json.str ""),
     ("recommendations_for_improvement",
       Json.arr [Json.obj
         [("recommendation", Json.str "Add metrics"), ("section", Json.str "Experience"),
          ("guidance", Json.str "Quantify achievements with numbers")]]),
     ("ats_optimization_suggestions",
       Json.arr [Json.obj
         [("section", Json.str "Skills"),
          ("current_content", Json.str "Current format"),
          ("suggested_change", Json.str "Specific change needed"),
          ("keywords_to_add", Json.arr [Json.str "keyword1", Json.str "keyword2"]),
          ("formatting_suggestion", Json.str "Specific format change"),
          ("reason", Json.str "Detailed reason")]]),
     ("key_strengths", Json.str ""),
     ("areas_of_improvement", Json.str "")]

/-- The prompt of JobAnalyzer.analyze_match; json.dumps with indent two
is external library serialization, passed in as a parameter. -/
def match_prompt (dumps : Json → String) (job_analysis resume_analysis : Json) : String :=
  "You are a professional resume analyzer. Compare the provided job requirements and resume to generate a detailed analysis in valid JSON. Respond ONLY with JSON matching this structure, filling it with specific, actionable content based on the inputs.\n\nJob Requirements:\n"
    ++ dumps job_analysis ++ "\n\nResume Details:\n" ++ dumps resume_analysis
    ++ "\n\nJSON schema example (use same keys, replace values):\n" ++ dumps match_structure

/-- Embedding of JobAnalyzer.analyze_job. -/
def analyze_job (c : LLMClient) (backend : String → Rat → GenResponse)
    (loads : String → Option Json) (job_description : String) : Json :=
  LLMClient.generate_json c backend loads (job_prompt job_description) (some (0.1 : Rat))

/-- Embedding of JobAnalyzer.analyze_resume. -/
def analyze_resume (c : LLMClient) (backend : String → Rat → GenResponse)
    (loads : String → Option Json) (resume_text : String) : Json :=
  LLMClient.generate_json c backend loads (resume_prompt resume_text) (some (0.1 : Rat))

/-- Embedding of JobAnalyzer.analyze_match. -/
def analyze_match (c : LLMClient) (backend : String → Rat → GenResponse)
    (loads : String → Option Json) (dumps : Json → String)
    (job_analysis resume_analysis : Json) : Json :=
  LLMClient.generate_json c backend loads
    (match_prompt dumps job_analysis resume_analysis) (some (0.2 : Rat))

/-- Python truthiness of a JSON value, as the completeness check in
main applies it to the three analysis results. -/
def py_truthy : Json → Bool
  | Json.null => false
  | Json.bool b => b
  | Json.num n => n != 0
  | Json.str s => s != ""
  | Json.arr xs => !xs.isEmpty
  | Json.obj kvs => !kvs.isEmpty

/-- Embedding of the completeness check in main:
not (job_analysis and resume_analysis and match_analysis). -/
def analysis_incomplete (job_analysis resume_analysis match_analysis : Json) : Bool :=
  !(py_truthy job_analysis && py_truthy resume_analysis && py_truthy match_analysis)

/-! ## Document reconstruction
(generate_updated_resume, src/JobFit-AI.py lines 94-199, and
generate_updated_resume1, lines 203-265)

The reportlab flowables appended to the content list are embedded as a
list of paragraph/spacer values; a paragraph records its text and the
name of the style object used.  Both builders consume from the match
analysis only the ats_optimization_suggestions entries, whose fields
are read with dict.get under string or list defaults; a suggestion is
embedded as a record of those six fields, with an absent key identified
with its default. -/

inductive Flowable where
  | para : String → String → Flowable
  | spacer : Nat → Nat → Flowable
deriving DecidableEq

/-- One entry of ats_optimization_suggestions; the section field keeps
the source key, quoted because section is a Lean keyword. -/
structure AtsSuggestion where
  «section» : String
  current_content : String
  suggested_change : String
  keywords_to_add : List String
  formatting_suggestion : String
  reason : String
deriving DecidableEq

/-- The part of the match analysis consumed by the resume builders. -/
structure MatchReport where
  ats_optimization_suggestions : List AtsSuggestion
deriving DecidableEq

/-- A match report with no suggestions. -/
def empty_report : MatchReport := MatchReport.mk []

/-- The bullet glyph of the source f-strings: the source file stores
the bullet character with mojibake, as the seven characters below. -/
def bullet_glyph : String :=
  "\u00C3\u00A2\u00E2\u201A\u00AC\u00C2\u00A2"

/-- The non-empty stripped lines of the resume text, as computed at
line 151 of the source. -/
def resume_parts (resume_text : String) : List String :=
  ((py_splitlines resume_text).map py_strip).filter (fun l => l != "")

/-- The keyword set of generate_updated_resume. -/
def common_sections : List String :=
  ["EXPERIENCE", "EDUCATION", "SKILLS", "PROJECTS", "CERTIFICATIONS", "SUMMARY", "OBJECTIVE"]

/-- The header test of generate_updated_resume:
line.isupper() or any(section in line.upper() for section in common_sections). -/
def is_section (line : String) : Bool :=
  py_isupper line || common_sections.any (fun s => py_in_str s (py_upper line))

/-- A bullet paragraph as emitted by flush_bullets. -/
def bullet_para (b : String) : Flowable :=
  Flowable.para (bullet_glyph ++ " " ++ b) "BulletStyle"

/-- Embedding of the nested flush_bullets: append one bullet paragraph
per pending bullet. -/
def flush_bullets (content : List Flowable) (bullets : List String) : List Flowable :=
  content ++ bullets.map bullet_para

/-- One step of the line loop of generate_updated_resume. -/
def resume_step (acc : List Flowable × List String) (line : String) :
    List Flowable × List String :=
  if is_section line then
    (flush_bullets acc.1 acc.2 ++ [Flowable.spacer 1 12, Flowable.para line "SectionHeader"], [])
  else (acc.1, acc.2 ++ [line])

/-- The content list before the suggestion block: title, spacer, then
the classified resume lines with a final bullet flush. -/
def resume_content (resume_text : String) : List Flowable :=
  flush_bullets
    ((resume_parts resume_text).foldl resume_step
      ([Flowable.para "Updated Resume" "Heading1", Flowable.spacer 1 12], [])).1
    ((resume_parts resume_text).foldl resume_step
      ([Flowable.para "Updated Resume" "Heading1", Flowable.spacer 1 12], [])).2

/-- One step of the suggestion loop of generate_updated_resume: the
Section line is appended unconditionally, the other five fields only
when truthy (the keyword list through its comma join). -/
def ats_step (content : List Flowable) (s : AtsSuggestion) : List Flowable :=
  content
    ++ [Flowable.para (bullet_glyph ++ " Section: " ++ s.«section») "RecommendationStyle"]
    ++ (if s.current_content != "" then
          [Flowable.para ("  Current: " ++ s.current_content) "RecommendationStyle"] else [])
    ++ (if s.suggested_change != "" then
          [Flowable.para ("  Suggestion: " ++ s.suggested_change) "RecommendationStyle"] else [])
    ++ (if String.intercalate ", " s.keywords_to_add != "" then
          [Flowable.para ("  Keywords to Add: " ++ String.intercalate ", " s.keywords_to_add)
            "RecommendationStyle"] else [])
    ++ (if s.formatting_suggestion != "" then
          [Flowable.para ("  Formatting: " ++ s.formatting_suggestion) "RecommendationStyle"] else [])
    ++ (if s.reason != "" then
          [Flowable.para ("  Reason: " ++ s.reason) "RecommendationStyle"] else [])
    ++ [Flowable.spacer 1 6]

/-- The three flowables opening the ATS recommendation block. -/
def ats_block_intro : List Flowable :=
  [Flowable.spacer 1 20,
   Flowable.para "ATS Optimization Recommendations" "SectionHeader",
   Flowable.spacer 1 10]

/-- Embedding of generate_updated_resume: the document content list
handed to doc.build. -/
def generate_updated_resume (resume_text : String) (match_analysis : MatchReport) :
    List Flowable :=
  if match_analysis.ats_optimization_suggestions.isEmpty then resume_content resume_text
  else
    match_analysis.ats_optimization_suggestions.foldl ats_step
      (resume_content resume_text ++ ats_block_intro)

/-- The keyword set of generate_updated_resume1, which omits SUMMARY
and OBJECTIVE. -/
def common_sections1 : List String :=
  ["EXPERIENCE", "EDUCATION", "SKILLS", "PROJECTS", "CERTIFICATIONS"]

/-- The header test of generate_updated_resume1. -/
def is_section1 (part : String) : Bool :=
  py_isupper part || common_sections1.any (fun s => py_in_str s (py_upper part))

/-- One step of the suggestion loop of generate_updated_resume1: no
reason line, and the keyword guard tests the list itself. -/
def ats_step1 (content : List Flowable) (s : AtsSuggestion) : List Flowable :=
  content
    ++ [Flowable.para (bullet_glyph ++ " Section: " ++ s.«section») "RecommendationStyle"]
    ++ (if s.current_content != "" then
          [Flowable.para ("  Current: " ++ s.current_content) "RecommendationStyle"] else [])
    ++ (if s.suggested_change != "" then
          [Flowable.para ("  Suggestion: " ++ s.suggested_change) "RecommendationStyle"] else [])
    ++ (if !s.keywords_to_add.isEmpty then
          [Flowable.para ("  Keywords to Add: " ++ String.intercalate ", " s.keywords_to_add)
            "RecommendationStyle"] else [])
    ++ (if s.formatting_suggestion != "" then
          [Flowable.para ("  Formatting: " ++ s.formatting_suggestion) "RecommendationStyle"] else [])
    ++ [Flowable.spacer 1 6]

/-- Embedding of generate_updated_resume1: lines kept unstripped, each
line emitted immediately with Heading2 or Normal style. -/
def generate_updated_resume1 (resume_text : String) (match_analysis : MatchReport) :
    List Flowable :=
  let content :=
    ((py_split_nl resume_text).filter (fun p => py_strip p != "")).foldl
      (fun c part =>
        c ++ [Flowable.para part (if is_section1 part then "Heading2" else "Normal"),
              Flowable.spacer 1 6])
      [Flowable.para "Updated Resume" "Heading1", Flowable.spacer 1 12]
  if match_analysis.ats_optimization_suggestions.isEmpty then content
  else
    match_analysis.ats_optimization_suggestions.foldl ats_step1
      (content
        ++ [Flowable.spacer 1 12,
            Flowable.para "ATS Optimization Recommendations" "Heading2",
            Flowable.spacer 1 8])

/-! ## Auxiliary definitions used by the claim statements -/

/-- Modelled from the spec: the first minimal non-greedy brace span of
step 3 of the ResponseExtractor algorithm (the spec text of claim C1),
running from the first opening brace to the first closing brace after
it.  The source has no such scan; this definition only expresses what
the claim predicts. -/
def spec_minimal_span (raw : String) : Option String :=
  match raw.toList.findIdx? (fun c => c == lbrace) with
  | some i =>
    match (raw.toList.drop (i + 1)).findIdx? (fun c => c == rbrace) with
    | some j => some (String.mk ((raw.toList.drop i).take (j + 2)))
    | none => none
  | none => none

/-- Spec-side rendering of one ATS suggestion entry, written after the
amended claim C4: the Section line is rendered unconditionally, the
other five fields only when non-empty, the keyword list through its
comma join. -/
def suggestion_entry_spec (s : AtsSuggestion) : List Flowable :=
  [Flowable.para (bullet_glyph ++ " Section: " ++ s.«section») "RecommendationStyle"]
    ++ (if s.current_content != "" then
          [Flowable.para ("  Current: " ++ s.current_content) "RecommendationStyle"] else [])
    ++ (if s.suggested_change != "" then
          [Flowable.para ("  Suggestion: " ++ s.suggested_change) "RecommendationStyle"] else [])
    ++ (if String.intercalate ", " s.keywords_to_add != "" then
          [Flowable.para ("  Keywords to Add: " ++ String.intercalate ", " s.keywords_to_add)
            "RecommendationStyle"] else [])
    ++ (if s.formatting_suggestion != "" then
          [Flowable.para ("  Formatting: " ++ s.formatting_suggestion) "RecommendationStyle"] else [])
    ++ (if s.reason != "" then
          [Flowable.para ("  Reason: " ++ s.reason) "RecommendationStyle"] else [])
    ++ [Flowable.spacer 1 6]

/-- The style-name projection selecting section-header paragraphs. -/
def section_header_of : Flowable → Option String
  | Flowable.para t "SectionHeader" => some t
  | _ => none

/-- The texts of the section-header paragraphs of a document, in order. -/
def section_header_texts (fs : List Flowable) : List String :=
  fs.filterMap section_header_of

/-- A raw backend string whose anchored greedy span matches but fails
to parse, while its first minimal span parses. -/
def c1_raw : String := "\x7b\"a\":1\x7d junk \x7bbad\x7d"

/-- A match report whose only suggestion has an empty section field and
a non-empty reason. -/
def c4_report : MatchReport :=
  MatchReport.mk [AtsSuggestion.mk "" "" "" [] "" "important"]

/-- The resume input of the worked reconstruction example. -/
def c3_resume : String :=
  "SUMMARY\nBuilt systems.\nEXPERIENCE\nLed a team.\nManaged budgets."

/-- A backend whose responses always carry empty text. -/
def empty_backend : String → Rat → GenResponse :=
  fun _ _ => GenResponse.mk (Except.ok (some "")) (Except.ok [])

/-- A client as built with the default constructor arguments. -/
def default_client : LLMClient :=
  LLMClient.mk "models/gemini-2.0-flash" (0.2 : Rat)

/-- A backend that reports whether the temperature it received lies in
the unit interval. -/
def probe_backend : String → Rat → GenResponse :=
  fun _ t =>
    GenResponse.mk
      (Except.ok (some (if t ≤ 1 then "within range" else "out of range")))
      (Except.ok [])

/-- A response whose text attribute raises and whose candidate parts
carry no usable text. -/
def failing_response : GenResponse :=
  GenResponse.mk (Except.error ()) (Except.ok [[none, some ""], []])

/-! ## Helper lemmas -/

/-- A contiguous slice of a list is an infix of it. -/
theorem slice_isInfix (l : List Char) (i k : Nat) : (l.drop i).take k <:+: l :=
  ((List.take_prefix k (l.drop i)).isInfix).trans ((List.drop_suffix i l).isInfix)

/-- The span selected by the anchored brace regex is a substring of the
searched string. -/
theorem search_brace_anchored_isInfix {raw m : String}
    (h : search_brace_anchored raw = some m) : m.toList <:+: raw.toList := by
  unfold search_brace_anchored at h
  split at h
  · split at h
    · injection h with h
      subst h
      exact slice_isInfix _ _ _
    · exact absurd h (by simp)
  · exact absurd h (by simp)

/-- The span selected by the greedy brace regex is a substring of the
searched string. -/
theorem search_brace_greedy_isInfix {raw m : String}
    (h : search_brace_greedy raw = some m) : m.toList <:+: raw.toList := by
  unfold search_brace_greedy at h
  split at h
  · split at h
    · injection h with h
      subst h
      exact slice_isInfix _ _ _
    · exact absurd h (by simp)
  · exact absurd h (by simp)

/-- Bullet paragraphs are not section headers. -/
theorem section_header_of_bullet (b : String) : section_header_of (bullet_para b) = none := rfl

/-- Flushing bullets adds no section header. -/
theorem section_header_texts_flush (content : List Flowable) (bullets : List String) :
    section_header_texts (flush_bullets content bullets) = section_header_texts content := by
  unfold flush_bullets section_header_texts
  rw [List.filterMap_append, List.filterMap_map]
  have h : ∀ b ∈ bullets, (section_header_of ∘ bullet_para) b = none := by
    intro b _
    exact section_header_of_bullet b
  rw [List.filterMap_eq_nil_iff.mpr h, List.append_nil]

/-- The line loop emits one section-header paragraph per line the
classifier accepts, in input order. -/
theorem section_header_texts_foldl (lines : List String) :
    ∀ acc : List Flowable × List String,
      section_header_texts (lines.foldl resume_step acc).1 =
        section_header_texts acc.1 ++ lines.filter is_section := by
  induction lines with
  | nil => intro acc; simp [section_header_texts]
  | cons l ls ih =>
    intro acc
    rw [List.foldl_cons, ih]
    cases hl : is_section l with
    | true =>
      have hstep : (resume_step acc l).1 =
          flush_bullets acc.1 acc.2 ++ [Flowable.spacer 1 12, Flowable.para l "SectionHeader"] := by
        simp [resume_step, hl]
      rw [hstep, List.filter_cons, hl]
      unfold section_header_texts
      rw [List.filterMap_append]
      have hflush := section_header_texts_flush acc.1 acc.2
      unfold section_header_texts at hflush
      rw [hflush]
      simp [section_header_of]
    | false =>
      have hstep : (resume_step acc l).1 = acc.1 := by
        simp [resume_step, hl]
      rw [hstep, List.filter_cons, hl]
      simp

/-- One step of the suggestion loop appends exactly the spec-side entry. -/
theorem ats_step_eq_entry (content : List Flowable) (s : AtsSuggestion) :
    ats_step content s = content ++ suggestion_entry_spec s := by
  unfold ats_step suggestion_entry_spec
  simp [List.append_assoc]

/-- The suggestion loop appends the concatenation of the spec-side
entries, in source order. -/
theorem foldl_ats_step (l : List AtsSuggestion) :
    ∀ init : List Flowable,
      l.foldl ats_step init = init ++ l.flatMap suggestion_entry_spec := by
  induction l with
  | nil => intro init; simp
  | cons s ss ih =>
    intro init
    rw [List.foldl_cons, ats_step_eq_entry, ih]
    simp [List.append_assoc]

/-! ## Claim theorems -/

/-- C1 counterexample: at the raw string c1_raw the whole-string parse
fails, the anchored greedy span (here the whole string) is selected but
fails to parse, the first minimal non-greedy span exists and parses to
a non-empty mapping, and yet generate_json gives up with the empty
mapping — so the minimal-span fallback claimed by C1 is not attempted. -/
theorem claim_C1_counterexample :
    json_loads c1_raw = none
  ∧ search_brace_anchored c1_raw = some c1_raw
  ∧ spec_minimal_span c1_raw = some "\x7b\"a\":1\x7d"
  ∧ json_loads "\x7b\"a\":1\x7d" = some (Json.obj [("a", Json.num 1)])
  ∧ generate_json_of_raw json_loads c1_raw = Json.obj []
  ∧ Json.obj [] ≠ Json.obj [("a", Json.num 1)] :=
  ⟨rfl, rfl, rfl, rfl, rfl, by simp⟩

/-- C1 amended: generate_json parses the whole string first; on
failure it selects the anchored greedy span, or the unanchored greedy
span only when the anchored regex found no match at all; the selected
span is parsed at most once, a failed parse of it (or no span) yields
the empty mapping, and no minimal non-greedy scan is ever made. -/
theorem claim_C1_amended (loads : String → Option Json) (raw : String) :
    (∀ v, loads raw = some v → generate_json_of_raw loads raw = v)
  ∧ (∀ m, loads raw = none →
      (search_brace_anchored raw).or (search_brace_greedy raw) = some m →
      generate_json_of_raw loads raw = (loads m).getD (Json.obj []))
  ∧ (loads raw = none →
      (search_brace_anchored raw).or (search_brace_greedy raw) = none →
      generate_json_of_raw loads raw = Json.obj [])
  ∧ (∀ m, search_brace_anchored raw = some m →
      (search_brace_anchored raw).or (search_brace_greedy raw) = some m) := by
  refine ⟨?_, ?_, ?_, ?_⟩
  · intro v h
    unfold generate_json_of_raw
    rw [h]
  · intro m h1 h2
    unfold generate_json_of_raw
    rw [h1, h2]
    show (match loads m with | some v => v | none => Json.obj []) = (loads m).getD (Json.obj [])
    cases loads m <;> rfl
  · intro h1 h2
    unfold generate_json_of_raw
    rw [h1, h2]
  · intro m h
    rw [h]
    rfl

/-- Witness for the amended C1 at concrete inputs: a string with a
trailing payload recovered through the span fallback, and a string
with no span at all degrading to the empty mapping. -/
theorem claim_C1_amended_witness :
    generate_json_of_raw json_loads "pre \x7b\"b\":2\x7d" = Json.obj [("b", Json.num 2)]
  ∧ generate_json_of_raw json_loads "no json here" = Json.obj [] :=
  ⟨((claim_C1_amended json_loads "pre \x7b\"b\":2\x7d").2.1 "\x7b\"b\":2\x7d" rfl rfl).trans rfl,
   (claim_C1_amended json_loads "no json here").2.2.1 rfl rfl⟩

/-- C2: when no substring of the raw string parses, generate_json
returns the empty mapping; the embedding is a total function, so no
exception escapes. -/
theorem claim_C2 (loads : String → Option Json) (raw : String)
    (h : ∀ s : String, s.toList <:+: raw.toList → loads s = none) :
    generate_json_of_raw loads raw = Json.obj [] := by
  have hraw : loads raw = none := h raw (List.infix_refl _)
  unfold generate_json_of_raw
  rw [hraw]
  cases hA : search_brace_anchored raw with
  | some m =>
    have hm : loads m = none := h m (search_brace_anchored_isInfix hA)
    simp [Option.or, hm]
  | none =>
    cases hB : search_brace_greedy raw with
    | some m =>
      have hm : loads m = none := h m (search_brace_greedy_isInfix hB)
      simp [Option.or, hB, hm]
    | none =>
      simp [Option.or, hB]

/-- Witness for C2 at the empty raw string, whose only substring is
itself and fails to parse. -/
theorem claim_C2_witness : generate_json_of_raw json_loads "" = Json.obj [] :=
  claim_C2 json_loads "" (fun s hs => by
    have h0 : s.toList = [] := List.infix_nil.mp hs
    cases s with
    | mk data =>
      have hd : data = [] := h0
      subst hd
      rfl)

/-- C10: when the whole raw string parses, generate_json returns the
parsed value unchanged, whatever its shape; the fallbacks and the
empty-mapping default are reached only when that parse fails. -/
theorem claim_C10 (loads : String → Option Json) (raw : String) (v : Json)
    (h : loads raw = some v) : generate_json_of_raw loads raw = v := by
  unfold generate_json_of_raw
  rw [h]

/-- Witness for C10 at a raw string that is a JSON array, returned
as-is rather than as a mapping. -/
theorem claim_C10_witness :
    json_loads "[1, 2]" = some (Json.arr [Json.num 1, Json.num 2])
  ∧ generate_json_of_raw json_loads "[1, 2]" = Json.arr [Json.num 1, Json.num 2] :=
  ⟨rfl, claim_C10 json_loads "[1, 2]" (Json.arr [Json.num 1, Json.num 2]) rfl⟩

/-- C3: generate_updated_resume splits the input into non-empty
trimmed lines, emits one section-header paragraph exactly for the lines
the upper-case-or-keyword classifier accepts (in input order), and on
the worked example yields the headers SUMMARY and EXPERIENCE with the
content groups of the claim, rendered as bullet paragraphs under the
preceding header. -/
theorem claim_C3 :
    (∀ resume_text : String,
      section_header_texts (generate_updated_resume resume_text empty_report) =
        (resume_parts resume_text).filter is_section)
  ∧ generate_updated_resume c3_resume empty_report =
      [Flowable.para "Updated Resume" "Heading1", Flowable.spacer 1 12,
       Flowable.spacer 1 12, Flowable.para "SUMMARY" "SectionHeader",
       Flowable.para (bullet_glyph ++ " Built systems.") "BulletStyle",
       Flowable.spacer 1 12, Flowable.para "EXPERIENCE" "SectionHeader",
       Flowable.para (bullet_glyph ++ " Led a team.") "BulletStyle",
       Flowable.para (bullet_glyph ++ " Managed budgets.") "BulletStyle"] := by
  constructor
  · intro rt
    show section_header_texts (resume_content rt) = _
    unfold resume_content
    rw [section_header_texts_flush, section_header_texts_foldl]
    rfl
  · rfl

/-- C4 counterexample: for a report whose only suggestion has an empty
section field, the rendered entry still contains the Section line, so
an empty field among the six is rendered, against the claim that only
non-empty fields are. -/
theorem claim_C4_counterexample :
    generate_updated_resume "" c4_report =
      [Flowable.para "Updated Resume" "Heading1", Flowable.spacer 1 12,
       Flowable.spacer 1 20,
       Flowable.para "ATS Optimization Recommendations" "SectionHeader",
       Flowable.spacer 1 10,
       Flowable.para (bullet_glyph ++ " Section: ") "RecommendationStyle",
       Flowable.para "  Reason: important" "RecommendationStyle",
       Flowable.spacer 1 6]
  ∧ (AtsSuggestion.mk "" "" "" [] "" "important").«section» = "" :=
  ⟨rfl, rfl⟩

/-- C4 amended: the suggestion block is appended exactly when the
suggestion sequence is non-empty, contains one entry per suggestion in
source order, and within each entry the Section line is rendered
unconditionally (even when empty) while the remaining five fields are
rendered exactly when non-empty, the keyword list through its comma
join. -/
theorem claim_C4_amended (resume_text : String) (match_analysis : MatchReport) :
    generate_updated_resume resume_text match_analysis =
      generate_updated_resume resume_text empty_report
        ++ (if match_analysis.ats_optimization_suggestions.isEmpty then []
            else ats_block_intro
              ++ match_analysis.ats_optimization_suggestions.flatMap suggestion_entry_spec) := by
  unfold generate_updated_resume
  cases h : match_analysis.ats_optimization_suggestions.isEmpty with
  | true => simp [empty_report]
  | false =>
    rw [foldl_ats_step]
    simp [empty_report, List.append_assoc]

/-- C8: the two reconstruction implementations diverge on the line
Summary: the keyword set of generate_updated_resume contains SUMMARY,
so the line becomes a section-header paragraph, while the keyword set
of generate_updated_resume1 does not, so the same line is emitted as
ordinary content. -/
theorem claim_C8 :
    is_section "Summary" = true
  ∧ is_section1 "Summary" = false
  ∧ generate_updated_resume "Summary" empty_report =
      [Flowable.para "Updated Resume" "Heading1", Flowable.spacer 1 12,
       Flowable.spacer 1 12, Flowable.para "Summary" "SectionHeader"]
  ∧ generate_updated_resume1 "Summary" empty_report =
      [Flowable.para "Updated Resume" "Heading1", Flowable.spacer 1 12,
       Flowable.para "Summary" "Normal", Flowable.spacer 1 6] :=
  ⟨rfl, rfl, rfl, rfl⟩

/-- C5 counterexample: a generate_text call with explicit temperature
five puts five, unclamped and outside the unit interval, into the
generation configuration, and the backend observably receives it. -/
theorem claim_C5_counterexample :
    generation_temperature default_client (some (5 : Rat)) = 5
  ∧ ¬ ((5 : Rat) ≤ 1)
  ∧ generate_text default_client probe_backend "p" (some (5 : Rat)) = "out of range" := by
  refine ⟨rfl, by norm_num, ?_⟩
  rfl

/-- C5 amended: an explicit temperature is used for the generation
call exactly as given, with no clamping; with no explicit temperature
the client temperature is used, which is 0.2 for a client constructed
with the default constructor temperature. -/
theorem claim_C5_amended (c : LLMClient) (t : Rat) (api_key model_name : String)
    (c' : LLMClient) (hinit : LLMClient.init api_key model_name (0.2 : Rat) = Except.ok c') :
    generation_temperature c (some t) = t
  ∧ generation_temperature c none = c.temperature
  ∧ generation_temperature c' none = (0.2 : Rat) := by
  refine ⟨rfl, rfl, ?_⟩
  unfold LLMClient.init at hinit
  split at hinit
  · simp at hinit
  · injection hinit with h
    subst h
    rfl

/-- Witness for the amended C5 at concrete inputs. -/
theorem claim_C5_amended_witness :
    generation_temperature default_client (some (5 : Rat)) = 5
  ∧ generation_temperature default_client none = default_client.temperature
  ∧ generation_temperature (LLMClient.mk "models/gemini-pro" (0.2 : Rat)) none = (0.2 : Rat) :=
  claim_C5_amended default_client 5 "key" "models/gemini-pro"
    (LLMClient.mk "models/gemini-pro" (0.2 : Rat)) rfl

/-- C6: under a backend whose responses always yield empty text, each
of the three analysis stages (all of which do run, the embedding being
total) returns the empty mapping, and the completeness check of main
flags the analysis as incomplete. -/
theorem claim_C6 (c : LLMClient) (backend : String → Rat → GenResponse)
    (loads : String → Option Json) (dumps : Json → String)
    (job_description resume_text : String) (job_analysis resume_analysis : Json)
    (hb : ∀ p t, first_text (backend p t) = "")
    (hl : loads "" = none) :
    analyze_job c backend loads job_description = Json.obj []
  ∧ analyze_resume c backend loads resume_text = Json.obj []
  ∧ analyze_match c backend loads dumps job_analysis resume_analysis = Json.obj []
  ∧ analysis_incomplete (analyze_job c backend loads job_description)
      (analyze_resume c backend loads resume_text)
      (analyze_match c backend loads dumps job_analysis resume_analysis) = true := by
  have key : ∀ prompt temp, LLMClient.generate_json c backend loads prompt temp = Json.obj [] := by
    intro prompt temp
    unfold LLMClient.generate_json generate_text
    rw [hb]
    unfold generate_json_of_raw
    rw [hl]
    rfl
  have h1 : analyze_job c backend loads job_description = Json.obj [] := key _ _
  have h2 : analyze_resume c backend loads resume_text = Json.obj [] := key _ _
  have h3 : analyze_match c backend loads dumps job_analysis resume_analysis = Json.obj [] :=
    key _ _
  refine ⟨h1, h2, h3, ?_⟩
  rw [h1, h2, h3]
  rfl

/-- Witness for C6 with a concrete empty-text backend and the concrete
json.loads model. -/
theorem claim_C6_witness :
    analyze_job default_client empty_backend json_loads "job text" = Json.obj []
  ∧ analyze_resume default_client empty_backend json_loads "resume text" = Json.obj []
  ∧ analyze_match default_client empty_backend json_loads (fun _ => "") Json.null Json.null =
      Json.obj []
  ∧ analysis_incomplete (analyze_job default_client empty_backend json_loads "job text")
      (analyze_resume default_client empty_backend json_loads "resume text")
      (analyze_match default_client empty_backend json_loads (fun _ => "") Json.null Json.null) =
      true :=
  claim_C6 default_client empty_backend json_loads (fun _ => "") "job text" "resume text"
    Json.null Json.null (fun p t => rfl) rfl

/-- C7: when the text attribute of the backend response yields no text
(or raises) and the candidate parts yield no text either (or raise),
generate_text returns the empty string; the embedding is total, so no
exception escapes. -/
theorem claim_C7 (c : LLMClient) (r : GenResponse) (prompt : String)
    (temperature : Option Rat)
    (h1 : ∀ t, r.text = Except.ok t → py_strip (t.getD "") = "")
    (h2 : ∀ cands, r.candidates = Except.ok cands → parts_text cands = "") :
    first_text r = "" ∧ generate_text c (fun _ _ => r) prompt temperature = "" := by
  have hf : first_text r = "" := by
    unfold first_text
    cases ht : r.text with
    | ok t => exact h1 t ht
    | error e =>
      cases hc : r.candidates with
      | ok cands => exact h2 cands hc
      | error e2 => rfl
  exact ⟨hf, hf⟩

/-- Witness for C7 at a response whose text attribute raises and whose
parts carry only missing or empty fragments. -/
theorem claim_C7_witness :
    first_text failing_response = ""
  ∧ generate_text default_client (fun _ _ => failing_response) "prompt" none = "" :=
  claim_C7 default_client failing_response "prompt" none
    (fun t ht => by simp [failing_response] at ht)
    (fun cands hc => by
      simp only [failing_response] at hc
      injection hc with h
      subst h
      rfl)

/-- C9: construction with a non-empty api key and an unsupported model
name succeeds and silently stores the default model name, for any
temperature. -/
theorem claim_C9 (api_key model_name : String) (temperature : Rat)
    (hk : api_key ≠ "") (hm : SUPPORTED_MODELS.contains model_name = false) :
    LLMClient.init api_key model_name temperature =
      Except.ok (LLMClient.mk "models/gemini-2.0-flash" temperature) := by
  unfold LLMClient.init
  rw [if_neg hk, hm]
  rfl

/-- Witness for C9 at a concrete unsupported model name. -/
theorem claim_C9_witness :
    "key" ≠ ""
  ∧ SUPPORTED_MODELS.contains "models/gemini-9" = false
  ∧ LLMClient.init "key" "models/gemini-9" (0.2 : Rat) =
      Except.ok (LLMClient.mk "models/gemini-2.0-flash" (0.2 : Rat)) :=
  ⟨by decide, rfl, claim_C9 "key" "models/gemini-9" (0.2 : Rat) (by decide) rfl⟩
